import Mathlib

/-!
Verification of the cash-flow engine in `loancf.py` (Cash-flow repository).

The numpy float arrays of the source are modelled as `List ℚ` (exact rational
arithmetic in place of IEEE doubles), elementwise array operations as
`List.zipWith` / `List.map`, and the numpy primitives the source calls
(`cumprod`, `cumsum`, `insert`, padding and shifting helpers) as structurally
identical list functions.  Each definition carries the line numbers of the
source it embeds.  Where a rational model necessarily diverges from IEEE
semantics (division by an exactly-zero denominator, which numpy turns into
inf/nan), the theorems below reason about the denominator expressions
themselves rather than the quotient.
-/

namespace Loancf

/-- `safedivide(a, b)` (loancf.py lines 15-19).  `np.isclose(b, 0, rtol=0,
atol=3e-11)` is the comparison `|b - 0| ≤ atol + rtol·|0|`, i.e. `|b| ≤ 3e-11`
(inclusive); in that case the function returns `0`, otherwise `a / b`. -/
def safedivide (a b : ℚ) : ℚ :=
  if |b| ≤ 3 / 10 ^ 11 then 0 else a / b

/-- Accumulator form of `np.cumprod` (running product, entry `i` is the
product of the first `i+1` inputs times `acc`). -/
def cumprodAux (acc : ℚ) : List ℚ → List ℚ
  | [] => []
  | x :: xs => (acc * x) :: cumprodAux (acc * x) xs

/-- `np.cumprod`. -/
def cumprod (l : List ℚ) : List ℚ := cumprodAux 1 l

/-- Accumulator form of `np.cumsum`. -/
def cumsumAux (acc : ℚ) : List ℚ → List ℚ
  | [] => []
  | x :: xs => (acc + x) :: cumsumAux (acc + x) xs

/-- `np.cumsum`. -/
def cumsum (l : List ℚ) : List ℚ := cumsumAux 0 l

/-- `shift_elements(arr, num, fill_value)` (loancf.py lines 26-36) for the
`num ≥ 0` branch, the only one the cash-flow code exercises
(`recovery_lag` is a non-negative month count): the first `num` slots become
`fill_value` and the remaining slots take the prefix of `arr`;
the length is unchanged. -/
def shift_elements (arr : List ℚ) (num : ℕ) (fill_value : ℚ) : List ℚ :=
  List.replicate (min num arr.length) fill_value ++ arr.take (arr.length - num)

/-- `pad_zeros(vec, n)` with the default `pad_value=0`
(loancf.py lines 38-45): right-pad with zeros up to length `n`. -/
def pad_zeros (vec : List ℚ) (n : ℕ) : List ℚ :=
  if vec.length < n then vec ++ List.replicate (n - vec.length) 0 else vec

/-- `pad_zeros(vec, n, pad_value='last')` (loancf.py lines 38-45): right-pad
with the last entry `vec[-1]` up to length `n` (Python raises on an empty
`vec`; modelled totally via `getLastD 0`, and every use below has `vec`
nonempty). -/
def pad_last (vec : List ℚ) (n : ℕ) : List ℚ :=
  if vec.length < n then vec ++ List.replicate (n - vec.length) (vec.getLastD 0) else vec

/-- The `Scenario` dataclass (loancf.py lines 50-64).  The scalar-broadcast
fields `refund_smm` and `aggMDR_timingV` are modelled as vectors (numpy
broadcasts a scalar `0` to a `wam`-length zero vector in the arithmetic). -/
structure Scenario where
  smmV : List ℚ
  dqV : List ℚ
  mdrV : List ℚ
  sevV : List ℚ
  recovery_lag : ℕ
  refund_smm : List ℚ
  refund_premium : ℚ
  aggMDR : ℚ
  aggMDR_timingV : List ℚ
  compIntHC : ℚ
  servicing_fee : ℚ
  is_advance : Bool
  servicing_fee_method : String

/-- The `Loan` dataclass (loancf.py lines 73-77). -/
structure Loan where
  wac : ℚ
  wam : ℕ
  pv : ℚ

/-- `numpy_financial.pmt(rate, nper, pv)` with the defaults `fv=0`,
`when='end'`: the library computes `-(fv + pv·(1+rate)^nper) / fact` where
`fact = nper` when `rate = 0` (the library special-cases a zero rate) and
`fact = ((1+rate)^nper - 1)/rate` otherwise. -/
def npf_pmt (rate : ℚ) (nper : ℕ) (pv : ℚ) : ℚ :=
  if rate = 0 then -(pv / nper)
  else -(pv * (1 + rate) ^ nper) / (((1 + rate) ^ nper - 1) / rate)

/-- `rate = wac / 12` (loancf.py line 95). -/
def monRate (l : Loan) : ℚ := l.wac / 12

/-- `X = -npf.pmt(rate, wam, pv)`, the fixed monthly payment
(loancf.py line 96). -/
def X (l : Loan) : ℚ := -npf_pmt (monRate l) l.wam l.pv

/-- `period_with_lag = wam + recovery_lag` (loancf.py line 89). -/
def period_with_lag (l : Loan) (s : Scenario) : ℕ := l.wam + s.recovery_lag

/-- `monthsV = np.arange(1, wam + 1 + recovery_lag)` (loancf.py line 99). -/
def monthsV (l : Loan) (s : Scenario) : List ℕ :=
  List.range' 1 (period_with_lag l s)

/-- The denominator `1 - (1 + rate) ** -wam` of the closed-form balance path
(loancf.py line 100).  It is `0` exactly when `rate = 0`. -/
def amortDen (l : Loan) : ℚ := 1 - ((1 + monRate l) ^ l.wam)⁻¹

/-- `balancesV = pv * (1 - (1+rate)**-(wam - np.arange(wam+1))) / (1 - (1+rate)**-wam)`
(loancf.py line 100), length `wam + 1`. -/
def balancesV (l : Loan) : List ℚ :=
  (List.range (l.wam + 1)).map
    (fun t => l.pv * (1 - ((1 + monRate l) ^ (l.wam - t))⁻¹) / amortDen l)

/-- `interestsV = balancesV[:-1] * rate` (loancf.py line 101). -/
def interestsV (l : Loan) : List ℚ :=
  (balancesV l).dropLast.map (fun b => b * monRate l)

/-- `principalsV = X - interestsV` (loancf.py line 102). -/
def principalsV (l : Loan) : List ℚ :=
  (interestsV l).map (fun i => X l - i)

/-- `paydownV = principalsV / balancesV[:-1]` (loancf.py line 103). -/
def paydownV (l : Loan) : List ℚ :=
  List.zipWith (fun p b => p / b) (principalsV l) (balancesV l).dropLast

/-- `dqMdrV = dqV + mdrV` (loancf.py line 92). -/
def dqMdrV (s : Scenario) : List ℚ :=
  List.zipWith (fun a b => a + b) s.dqV s.mdrV

/-- `np.ones(wam) - smmV - refund_smm - mdrV`, the per-month survival factor
inside the cumulative product of loancf.py line 105. -/
def hazardV (l : Loan) (s : Scenario) : List ℚ :=
  List.zipWith (fun a b => a - b)
    (List.zipWith (fun a b => a - b)
      (List.zipWith (fun a b => a - b) (List.replicate l.wam (1 : ℚ)) s.smmV)
      s.refund_smm)
    s.mdrV

/-- `p_survV = np.cumprod(np.ones(wam) - smmV - refund_smm - mdrV)`
(loancf.py line 105). -/
def p_survV (l : Loan) (s : Scenario) : List ℚ := cumprod (hazardV l s)

/-- `default_aggMDRV = pv * scenario.aggMDR * scenario.aggMDR_timingV`
(loancf.py line 106). -/
def default_aggMDRV (l : Loan) (s : Scenario) : List ℚ :=
  s.aggMDR_timingV.map (fun w => l.pv * s.aggMDR * w)

/-- `dqPrin_aggMDRV = paydownV * default_aggMDRV` (loancf.py line 107). -/
def dqPrin_aggMDRV (l : Loan) (s : Scenario) : List ℚ :=
  List.zipWith (fun a b => a * b) (paydownV l) (default_aggMDRV l s)

/-- `scaled_default_aggMDRV = default_aggMDRV / (balancesV[:-1] * p_survV)`
(loancf.py line 108).  Note: a plain elementwise division, not `safedivide`. -/
def scaled_default_aggMDRV (l : Loan) (s : Scenario) : List ℚ :=
  List.zipWith (fun d x => d / x) (default_aggMDRV l s)
    (List.zipWith (fun a b => a * b) (balancesV l).dropLast (p_survV l s))

/-- `cum_scaled_default_aggMDRV = np.cumsum(scaled_default_aggMDRV)`
(loancf.py line 109). -/
def cum_scaled_default_aggMDRV (l : Loan) (s : Scenario) : List ℚ :=
  cumsum (scaled_default_aggMDRV l s)

/-- `survivorshipV = np.insert(p_survV * (1 - cum_scaled_default_aggMDRV), 0, 1)`
(loancf.py line 110), length `wam + 1`. -/
def survivorshipV (l : Loan) (s : Scenario) : List ℚ :=
  1 :: List.zipWith (fun p c => p * (1 - c)) (p_survV l s) (cum_scaled_default_aggMDRV l s)

/-- `survivorshipV * balancesV` (loancf.py line 112), length `wam + 1`. -/
def actualBalanceFullV (l : Loan) (s : Scenario) : List ℚ :=
  List.zipWith (fun a b => a * b) (survivorshipV l s) (balancesV l)

/-- `b_balanceV = actualBalanceV[:-1]`, the beginning interest-bearing balance
(loancf.py line 113). -/
def b_balanceV (l : Loan) (s : Scenario) : List ℚ :=
  (actualBalanceFullV l s).dropLast

/-- `actualBalanceV = actualBalanceV[1:]`, the ending interest-bearing balance
(loancf.py line 114). -/
def actualBalanceV (l : Loan) (s : Scenario) : List ℚ :=
  (actualBalanceFullV l s).drop 1

/-- `dqPrinV` (loancf.py lines 118-119): zero when the servicer advances,
otherwise `survivorshipV[:-1] * principalsV * dqMdrV + dqPrin_aggMDRV`. -/
def dqPrinV (l : Loan) (s : Scenario) : List ℚ :=
  if s.is_advance then List.replicate l.wam 0
  else
    List.zipWith (fun a b => a + b)
      (List.zipWith (fun a b => a * b)
        (List.zipWith (fun a b => a * b) (survivorshipV l s).dropLast (principalsV l))
        (dqMdrV s))
      (dqPrin_aggMDRV l s)

/-- `schedPrinV = survivorshipV[:-1] * principalsV - dqPrinV`
(loancf.py line 120). -/
def schedPrinV (l : Loan) (s : Scenario) : List ℚ :=
  List.zipWith (fun a b => a - b)
    (List.zipWith (fun a b => a * b) (survivorshipV l s).dropLast (principalsV l))
    (dqPrinV l s)

/-- `prepayPrinV = survivorshipV[:-1] * balancesV[1:] * smmV`
(loancf.py line 121) — the value in scope up to line 137, before the
reassignment at line 138. -/
def prepayPrinV0 (l : Loan) (s : Scenario) : List ℚ :=
  List.zipWith (fun a b => a * b)
    (List.zipWith (fun a b => a * b) (survivorshipV l s).dropLast ((balancesV l).drop 1))
    s.smmV

/-- `defaultV = b_balanceV * mdrV + default_aggMDRV` (loancf.py line 122). -/
def defaultV (l : Loan) (s : Scenario) : List ℚ :=
  List.zipWith (fun a b => a + b)
    (List.zipWith (fun a b => a * b) (b_balanceV l s) s.mdrV)
    (default_aggMDRV l s)

/-- `writedownV = shift_elements(pad_zeros(defaultV, period_with_lag), recovery_lag, 0)`
(loancf.py lines 128, 131; the `* sevV` of line 128 is commented out in the
source), length `wam + recovery_lag`. -/
def writedownV (l : Loan) (s : Scenario) : List ℚ :=
  shift_elements (pad_zeros (defaultV l s) (period_with_lag l s)) s.recovery_lag 0

/-- `pad_zeros(sevV, period_with_lag, pad_value='last')` (loancf.py line 132):
the severity vector extended to the lag horizon with its last value. -/
def sevPadV (l : Loan) (s : Scenario) : List ℚ :=
  pad_last s.sevV (period_with_lag l s)

/-- `recoveryV = writedownV * (1 - pad_zeros(sevV, period_with_lag, pad_value='last'))`
(loancf.py line 132, the "new calculation" that overwrites the discarded
lines 129-130), length `wam + recovery_lag`. -/
def recoveryV (l : Loan) (s : Scenario) : List ℚ :=
  List.zipWith (fun w sv => w * (1 - sv)) (writedownV l s) (sevPadV l s)

/-- `refundPrinV = survivorshipV[:-1] * balancesV[1:] * refund_smm`
(loancf.py line 134). -/
def refundPrinV (l : Loan) (s : Scenario) : List ℚ :=
  List.zipWith (fun a b => a * b)
    (List.zipWith (fun a b => a * b) (survivorshipV l s).dropLast ((balancesV l).drop 1))
    s.refund_smm

/-- `totalPrinV = pad_zeros(schedPrinV, n) + pad_zeros(prepayPrinV, n) + recoveryV`
(loancf.py line 135; `prepayPrinV` here is still the line-121 value). -/
def totalPrinV (l : Loan) (s : Scenario) : List ℚ :=
  List.zipWith (fun a b => a + b)
    (List.zipWith (fun a b => a + b)
      (pad_zeros (schedPrinV l s) (period_with_lag l s))
      (pad_zeros (prepayPrinV0 l s) (period_with_lag l s)))
    (recoveryV l s)

/-- `compIntV = prepayPrinV * rate * compIntHC` (loancf.py line 136; uses the
line-121 `prepayPrinV`). -/
def compIntV (l : Loan) (s : Scenario) : List ℚ :=
  (prepayPrinV0 l s).map (fun p => p * monRate l * s.compIntHC)

/-- `refundIntV = refundPrinV * rate` (loancf.py line 137). -/
def refundIntV (l : Loan) (s : Scenario) : List ℚ :=
  (refundPrinV l s).map (fun p => p * monRate l)

/-- `prepayPrinV = survivorshipV[:-1] * balancesV[1:] * smmV + refundPrinV`
(loancf.py line 138, the reassignment that adds the refund principal). -/
def prepayPrinV (l : Loan) (s : Scenario) : List ℚ :=
  List.zipWith (fun a b => a + b) (prepayPrinV0 l s) (refundPrinV l s)

/-- `defaultBalV = np.maximum(0, np.cumsum(pad_zeros(defaultV, n) - writedownV))`
(loancf.py line 141), the running "deadbeat" balance. -/
def defaultBalV (l : Loan) (s : Scenario) : List ℚ :=
  (cumsum (List.zipWith (fun a b => a - b)
    (pad_zeros (defaultV l s) (period_with_lag l s)) (writedownV l s))).map
    (fun x => max 0 x)

/-- `b_totalBalV = pad_zeros(b_balanceV, n) + np.insert(defaultBalV, 0, 0)[:-1]`
(loancf.py line 142). -/
def b_totalBalV (l : Loan) (s : Scenario) : List ℚ :=
  List.zipWith (fun a b => a + b)
    (pad_zeros (b_balanceV l s) (period_with_lag l s))
    ((0 :: defaultBalV l s).dropLast)

/-- `totalBalV = pad_zeros(actualBalanceV, n) + defaultBalV`
(loancf.py line 143). -/
def totalBalV (l : Loan) (s : Scenario) : List ℚ :=
  List.zipWith (fun a b => a + b)
    (pad_zeros (actualBalanceV l s) (period_with_lag l s))
    (defaultBalV l s)

/-- `servicingFee_rate = servicing_fee / 12` (loancf.py line 145). -/
def servicingFee_rate (s : Scenario) : ℚ := s.servicing_fee / 12

/-- `servicingFee_begV = b_totalBalV * servicingFee_rate` (loancf.py line 146). -/
def servicingFee_begV (l : Loan) (s : Scenario) : List ℚ :=
  (b_totalBalV l s).map (fun b => b * servicingFee_rate s)

/-- `servicingFee_avgV = ((b_totalBalV + totalBalV) / 2) * servicingFee_rate`
(loancf.py line 147). -/
def servicingFee_avgV (l : Loan) (s : Scenario) : List ℚ :=
  List.zipWith (fun a b => (a + b) / 2 * servicingFee_rate s)
    (b_totalBalV l s) (totalBalV l s)

/-- The servicing-fee method branch (loancf.py lines 149-152): the average
method when the string equals `"avg"`; every other string takes the
beginning-balance branch. -/
def servicingFeeV (l : Loan) (s : Scenario) : List ℚ :=
  if s.servicing_fee_method = "avg" then servicingFee_avgV l s
  else servicingFee_begV l s

/-- `actInterestV` before the refund adjustment (loancf.py lines 155-156):
`rate * b_balanceV` when advancing, otherwise
`rate * (b_balanceV * (1 - dqMdrV) - default_aggMDRV) - compIntV`. -/
def actInterestV0 (l : Loan) (s : Scenario) : List ℚ :=
  if s.is_advance then (b_balanceV l s).map (fun b => monRate l * b)
  else
    List.zipWith (fun a b => a - b)
      (List.zipWith (fun a b => monRate l * (a - b))
        (List.zipWith (fun b dm => b * (1 - dm)) (b_balanceV l s) (dqMdrV s))
        (default_aggMDRV l s))
      (compIntV l s)

/-- `actInterestV -= refundIntV` (loancf.py line 157). -/
def actInterestV (l : Loan) (s : Scenario) : List ℚ :=
  List.zipWith (fun a b => a - b) (actInterestV0 l s) (refundIntV l s)

/-- `cfV = totalPrinV + pad_zeros(actInterestV, period_with_lag)`
(loancf.py line 158). -/
def cfV (l : Loan) (s : Scenario) : List ℚ :=
  List.zipWith (fun a b => a + b) (totalPrinV l s)
    (pad_zeros (actInterestV l s) (period_with_lag l s))

/-- The cash-flow table (loancf.py lines 169-183): the thirteen columns of the
`DataFrame` returned by `Loan.getCashflow`, in source order. -/
structure CashflowTable where
  months : List ℕ
  prin : List ℚ
  schedPrin : List ℚ
  prepayPrin : List ℚ
  refundPrin : List ℚ
  defaultCol : List ℚ
  writedown : List ℚ
  recovery : List ℚ
  interest : List ℚ
  servicingFee : List ℚ
  beginningBalance : List ℚ
  balance : List ℚ
  cfl : List ℚ

/-- `Loan.getCashflow` (loancf.py lines 79-185): the returned table, with the
final padding of lines 160-166 applied to the `wam`-length columns. -/
def getCashflow (l : Loan) (s : Scenario) : CashflowTable :=
  { months := monthsV l s
    prin := totalPrinV l s
    schedPrin := pad_zeros (schedPrinV l s) (period_with_lag l s)
    prepayPrin := pad_zeros (prepayPrinV l s) (period_with_lag l s)
    refundPrin := pad_zeros (refundPrinV l s) (period_with_lag l s)
    defaultCol := pad_zeros (defaultV l s) (period_with_lag l s)
    writedown := writedownV l s
    recovery := recoveryV l s
    interest := pad_zeros (actInterestV l s) (period_with_lag l s)
    servicingFee := servicingFeeV l s
    beginningBalance := pad_zeros (b_balanceV l s) (period_with_lag l s)
    balance := pad_zeros (actualBalanceV l s) (period_with_lag l s)
    cfl := cfV l s }

/-- `yV = (1 + yieldValue/12) ** np.arange(1, wam + 1 + recovery_lag)`
(loancf.py line 188). -/
def yV (l : Loan) (s : Scenario) (y : ℚ) : List ℚ :=
  (monthsV l s).map (fun t => (1 + y / 12) ^ t)

/-- `Loan.y2p` (loancf.py lines 187-195):
`np.sum((cfV - servicingFeeV) / yV) / (pv - np.sum(refundPrinV / yV))`,
where the three vectors are the `CFL`, `Servicing Fee` and `Refund Prin`
columns of `getCashflow`. -/
def y2p (l : Loan) (s : Scenario) (y : ℚ) : ℚ :=
  (List.zipWith (fun c d => c / d)
    (List.zipWith (fun c f => c - f) (getCashflow l s).cfl (getCashflow l s).servicingFee)
    (yV l s y)).sum
  / (l.pv - (List.zipWith (fun r d => r / d) (getCashflow l s).refundPrin (yV l s y)).sum)

/-- `price_for_yield(y) = y2p(scenario, Helper(y)) - price_target`, the
objective handed to `brentq` inside `Loan.p2y` (loancf.py lines 200-205). -/
def price_for_yield (l : Loan) (s : Scenario) (price_target y : ℚ) : ℚ :=
  y2p l s y - price_target

/-- Modelled from the spec: `scipy.optimize.brentq(f, a, b)` (not part of this
repository) is a bracketed root-finder — a returned value is a root of `f`
lying in the bracket `[a, b]`. -/
def brentqRoot (f : ℚ → ℚ) (a b r : ℚ) : Prop :=
  a ≤ r ∧ r ≤ b ∧ f r = 0

/-- Modelled from the spec: `scipy.optimize.brentq(f, a, b)` raises
(`f(a) and f(b) must have different signs`) exactly when the bracket shows no
sign change, i.e. `f(a)·f(b) > 0`. -/
def brentqNoBracket (f : ℚ → ℚ) (a b : ℚ) : Prop :=
  0 < f a * f b

/-- `Loan.p2y` (loancf.py lines 197-208) returning a yield `r`: the successful
outcome of `brentq(price_for_yield, 0.0001, 1.0)`. -/
def p2y_returns (l : Loan) (s : Scenario) (price_target r : ℚ) : Prop :=
  brentqRoot (price_for_yield l s price_target) (1 / 10000) 1 r

/-- `Loan.p2y` (loancf.py lines 197-208) raising: the failure outcome of
`brentq(price_for_yield, 0.0001, 1.0)` when the bracket has no sign change. -/
def p2y_fails (l : Loan) (s : Scenario) (price_target : ℚ) : Prop :=
  brentqNoBracket (price_for_yield l s price_target) (1 / 10000) 1

/-! ### Index and length lemmas for the list primitives -/

lemma getD_zipWith {f : ℚ → ℚ → ℚ} {a b : List ℚ} {i : ℕ}
    (h1 : i < a.length) (h2 : i < b.length) :
    (List.zipWith f a b).getD i 0 = f (a.getD i 0) (b.getD i 0) := by
  have h : i < (List.zipWith f a b).length := by
    rw [List.length_zipWith]; omega
  rw [List.getD_eq_getElem _ _ h, List.getD_eq_getElem _ _ h1, List.getD_eq_getElem _ _ h2,
    List.getElem_zipWith]

lemma getD_map {α β : Type} (f : α → β) (a : List α) (i : ℕ) (d : α) (e : β)
    (h : i < a.length) :
    (a.map f).getD i e = f (a.getD i d) := by
  have h2 : i < (a.map f).length := by simpa using h
  rw [List.getD_eq_getElem _ _ h2, List.getD_eq_getElem _ _ h, List.getElem_map]

lemma getD_append_replicate_zero (v : List ℚ) (m i : ℕ) :
    (v ++ List.replicate m (0 : ℚ)).getD i 0 = v.getD i 0 := by
  rcases lt_or_le i v.length with h | h
  · rw [List.getD_eq_getElem _ _ (by simp; omega), List.getD_eq_getElem _ _ h,
      List.getElem_append_left h]
  · rw [List.getD_eq_default _ _ h]
    rcases lt_or_le i (v.length + m) with h2 | h2
    · rw [List.getD_eq_getElem _ _ (by simp; omega), List.getElem_append_right h]
      simp
    · rw [List.getD_eq_default _ _ (by simp; omega)]

/-- Zero-padding never changes an entry read with default `0`. -/
lemma getD_pad_zeros (v : List ℚ) (n i : ℕ) :
    (pad_zeros v n).getD i 0 = v.getD i 0 := by
  unfold pad_zeros
  split
  · exact getD_append_replicate_zero v _ i
  · rfl

@[simp] lemma length_pad_zeros (v : List ℚ) (n : ℕ) :
    (pad_zeros v n).length = max n v.length := by
  unfold pad_zeros
  split <;> simp <;> omega

@[simp] lemma length_pad_last (v : List ℚ) (n : ℕ) :
    (pad_last v n).length = max n v.length := by
  unfold pad_last
  split <;> simp <;> omega

@[simp] lemma length_shift_elements (arr : List ℚ) (num : ℕ) (fill : ℚ) :
    (shift_elements arr num fill).length = arr.length := by
  simp [shift_elements]
  omega

@[simp] lemma length_cumprodAux (acc : ℚ) (l : List ℚ) :
    (cumprodAux acc l).length = l.length := by
  induction l generalizing acc with
  | nil => rfl
  | cons x xs ih => simp [cumprodAux, ih]

@[simp] lemma length_cumprod (l : List ℚ) : (cumprod l).length = l.length :=
  length_cumprodAux 1 l

@[simp] lemma length_cumsumAux (acc : ℚ) (l : List ℚ) :
    (cumsumAux acc l).length = l.length := by
  induction l generalizing acc with
  | nil => rfl
  | cons x xs ih => simp [cumsumAux, ih]

@[simp] lemma length_cumsum (l : List ℚ) : (cumsum l).length = l.length :=
  length_cumsumAux 0 l

lemma cumprodAux_getD_zero (acc : ℚ) (l : List ℚ) (h : 0 < l.length) :
    (cumprodAux acc l).getD 0 0 = acc * l.getD 0 0 := by
  cases l with
  | nil => simp at h
  | cons x xs => simp [cumprodAux]

lemma cumprodAux_getD_succ (l : List ℚ) (acc : ℚ) (i : ℕ) (h : i + 1 < l.length) :
    (cumprodAux acc l).getD (i + 1) 0 =
      (cumprodAux acc l).getD i 0 * l.getD (i + 1) 0 := by
  induction l generalizing acc i with
  | nil => simp at h
  | cons x xs ih =>
    cases i with
    | zero =>
      have hx : 0 < xs.length := by simp at h; omega
      simp only [cumprodAux, List.getD_cons_succ, List.getD_cons_zero]
      exact cumprodAux_getD_zero (acc * x) xs hx
    | succ j =>
      have hj : j + 1 < xs.length := by simp at h; omega
      simpa [cumprodAux] using ih (acc * x) j hj

lemma cumprodAux_getD_bounds (l : List ℚ) (acc : ℚ) (h0 : 0 ≤ acc) (h1 : acc ≤ 1)
    (hb : ∀ i, i < l.length → 0 ≤ l.getD i 0 ∧ l.getD i 0 ≤ 1) :
    ∀ i, i < l.length → 0 ≤ (cumprodAux acc l).getD i 0 ∧ (cumprodAux acc l).getD i 0 ≤ 1 := by
  induction l generalizing acc with
  | nil => intro i hi; simp at hi
  | cons x xs ih =>
    intro i hi
    have hx := hb 0 (by simp)
    simp only [List.getD_cons_zero] at hx
    have hax0 : 0 ≤ acc * x := mul_nonneg h0 hx.1
    have hax1 : acc * x ≤ 1 := mul_le_one₀ h1 hx.1 hx.2
    cases i with
    | zero => simpa [cumprodAux] using ⟨hax0, hax1⟩
    | succ j =>
      have hj : j < xs.length := by simp at hi; omega
      have := ih (acc * x) hax0 hax1
        (fun i hi2 => by simpa using hb (i + 1) (by simp; omega)) j hj
      simpa [cumprodAux] using this

lemma cumsumAux_getD_zero (acc : ℚ) (l : List ℚ) (h : 0 < l.length) :
    (cumsumAux acc l).getD 0 0 = acc + l.getD 0 0 := by
  cases l with
  | nil => simp at h
  | cons x xs => simp [cumsumAux]

lemma cumsumAux_getD_succ (l : List ℚ) (acc : ℚ) (i : ℕ) (h : i + 1 < l.length) :
    (cumsumAux acc l).getD (i + 1) 0 =
      (cumsumAux acc l).getD i 0 + l.getD (i + 1) 0 := by
  induction l generalizing acc i with
  | nil => simp at h
  | cons x xs ih =>
    cases i with
    | zero =>
      have hx : 0 < xs.length := by simp at h; omega
      simp only [cumsumAux, List.getD_cons_succ, List.getD_cons_zero]
      exact cumsumAux_getD_zero (acc + x) xs hx
    | succ j =>
      have hj : j + 1 < xs.length := by simp at h; omega
      simpa [cumsumAux] using ih (acc + x) j hj

lemma cumsumAux_getD_nonneg (l : List ℚ) (acc : ℚ) (h0 : 0 ≤ acc)
    (hb : ∀ i, i < l.length → 0 ≤ l.getD i 0) :
    ∀ i, i < l.length → 0 ≤ (cumsumAux acc l).getD i 0 := by
  induction l generalizing acc with
  | nil => intro i hi; simp at hi
  | cons x xs ih =>
    intro i hi
    have hx := hb 0 (by simp)
    simp only [List.getD_cons_zero] at hx
    cases i with
    | zero => simpa [cumsumAux] using add_nonneg h0 hx
    | succ j =>
      have hj : j < xs.length := by simp at hi; omega
      have := ih (acc + x) (add_nonneg h0 hx)
        (fun i hi2 => by simpa using hb (i + 1) (by simp; omega)) j hj
      simpa [cumsumAux] using this

lemma sum_zipWith_getD (f : ℚ → ℚ → ℚ) :
    ∀ (a b : List ℚ), a.length = b.length →
      (List.zipWith f a b).sum = ∑ t ∈ Finset.range a.length, f (a.getD t 0) (b.getD t 0) := by
  intro a
  induction a with
  | nil => intro b _; simp
  | cons x xs ih =>
    intro b hb
    cases b with
    | nil => simp at hb
    | cons y ys =>
      have hxy : xs.length = ys.length := by simpa using hb
      simp only [List.zipWith_cons_cons, List.sum_cons, ih ys hxy, List.length_cons]
      rw [Finset.sum_range_succ']
      simp [add_comm]

/-! ### Lengths of the cash-flow vectors (for a scenario whose rate vectors
have the data-model length `wam`) -/

lemma length_balancesV (l : Loan) : (balancesV l).length = l.wam + 1 := by
  simp [balancesV]

lemma length_interestsV (l : Loan) : (interestsV l).length = l.wam := by
  simp [interestsV, length_balancesV]

lemma length_principalsV (l : Loan) : (principalsV l).length = l.wam := by
  simp [principalsV, length_interestsV]

lemma length_hazardV (l : Loan) (s : Scenario) (h1 : s.smmV.length = l.wam)
    (h2 : s.refund_smm.length = l.wam) (h3 : s.mdrV.length = l.wam) :
    (hazardV l s).length = l.wam := by
  simp [hazardV, h1, h2, h3]

lemma length_p_survV (l : Loan) (s : Scenario) (h1 : s.smmV.length = l.wam)
    (h2 : s.refund_smm.length = l.wam) (h3 : s.mdrV.length = l.wam) :
    (p_survV l s).length = l.wam := by
  simp [p_survV, length_hazardV l s h1 h2 h3]

lemma length_default_aggMDRV (l : Loan) (s : Scenario)
    (ht : s.aggMDR_timingV.length = l.wam) :
    (default_aggMDRV l s).length = l.wam := by
  simp [default_aggMDRV, ht]

lemma length_scaled_default_aggMDRV (l : Loan) (s : Scenario)
    (h1 : s.smmV.length = l.wam) (h2 : s.refund_smm.length = l.wam)
    (h3 : s.mdrV.length = l.wam) (ht : s.aggMDR_timingV.length = l.wam) :
    (scaled_default_aggMDRV l s).length = l.wam := by
  simp [scaled_default_aggMDRV, length_default_aggMDRV l s ht, length_balancesV,
    length_p_survV l s h1 h2 h3]

lemma length_cum_scaled (l : Loan) (s : Scenario)
    (h1 : s.smmV.length = l.wam) (h2 : s.refund_smm.length = l.wam)
    (h3 : s.mdrV.length = l.wam) (ht : s.aggMDR_timingV.length = l.wam) :
    (cum_scaled_default_aggMDRV l s).length = l.wam := by
  simp [cum_scaled_default_aggMDRV,
    length_scaled_default_aggMDRV l s h1 h2 h3 ht]

lemma length_survivorshipV (l : Loan) (s : Scenario)
    (h1 : s.smmV.length = l.wam) (h2 : s.refund_smm.length = l.wam)
    (h3 : s.mdrV.length = l.wam) (ht : s.aggMDR_timingV.length = l.wam) :
    (survivorshipV l s).length = l.wam + 1 := by
  simp [survivorshipV, length_p_survV l s h1 h2 h3, length_cum_scaled l s h1 h2 h3 ht]

lemma length_actualBalanceFullV (l : Loan) (s : Scenario)
    (h1 : s.smmV.length = l.wam) (h2 : s.refund_smm.length = l.wam)
    (h3 : s.mdrV.length = l.wam) (ht : s.aggMDR_timingV.length = l.wam) :
    (actualBalanceFullV l s).length = l.wam + 1 := by
  simp [actualBalanceFullV, length_survivorshipV l s h1 h2 h3 ht, length_balancesV]

lemma length_b_balanceV (l : Loan) (s : Scenario)
    (h1 : s.smmV.length = l.wam) (h2 : s.refund_smm.length = l.wam)
    (h3 : s.mdrV.length = l.wam) (ht : s.aggMDR_timingV.length = l.wam) :
    (b_balanceV l s).length = l.wam := by
  simp [b_balanceV, length_actualBalanceFullV l s h1 h2 h3 ht]

lemma length_actualBalanceV (l : Loan) (s : Scenario)
    (h1 : s.smmV.length = l.wam) (h2 : s.refund_smm.length = l.wam)
    (h3 : s.mdrV.length = l.wam) (ht : s.aggMDR_timingV.length = l.wam) :
    (actualBalanceV l s).length = l.wam := by
  simp [actualBalanceV, length_actualBalanceFullV l s h1 h2 h3 ht]

lemma length_dqMdrV (l : Loan) (s : Scenario) (hd : s.dqV.length = l.wam)
    (h3 : s.mdrV.length = l.wam) : (dqMdrV s).length = l.wam := by
  simp [dqMdrV, hd, h3]

lemma length_paydownV (l : Loan) : (paydownV l).length = l.wam := by
  simp [paydownV, length_principalsV, length_balancesV]

lemma length_dqPrin_aggMDRV (l : Loan) (s : Scenario)
    (ht : s.aggMDR_timingV.length = l.wam) :
    (dqPrin_aggMDRV l s).length = l.wam := by
  simp [dqPrin_aggMDRV, length_paydownV, length_default_aggMDRV l s ht]

lemma length_dqPrinV (l : Loan) (s : Scenario)
    (h1 : s.smmV.length = l.wam) (h2 : s.refund_smm.length = l.wam)
    (h3 : s.mdrV.length = l.wam) (ht : s.aggMDR_timingV.length = l.wam)
    (hd : s.dqV.length = l.wam) :
    (dqPrinV l s).length = l.wam := by
  unfold dqPrinV
  split
  · simp
  · simp [length_survivorshipV l s h1 h2 h3 ht, length_principalsV,
      length_dqMdrV l s hd h3, length_dqPrin_aggMDRV l s ht]

lemma length_schedPrinV (l : Loan) (s : Scenario)
    (h1 : s.smmV.length = l.wam) (h2 : s.refund_smm.length = l.wam)
    (h3 : s.mdrV.length = l.wam) (ht : s.aggMDR_timingV.length = l.wam)
    (hd : s.dqV.length = l.wam) :
    (schedPrinV l s).length = l.wam := by
  simp [schedPrinV, length_survivorshipV l s h1 h2 h3 ht, length_principalsV,
    length_dqPrinV l s h1 h2 h3 ht hd]

lemma length_prepayPrinV0 (l : Loan) (s : Scenario)
    (h1 : s.smmV.length = l.wam) (h2 : s.refund_smm.length = l.wam)
    (h3 : s.mdrV.length = l.wam) (ht : s.aggMDR_timingV.length = l.wam) :
    (prepayPrinV0 l s).length = l.wam := by
  simp [prepayPrinV0, length_survivorshipV l s h1 h2 h3 ht, length_balancesV, h1]

lemma length_refundPrinV (l : Loan) (s : Scenario)
    (h1 : s.smmV.length = l.wam) (h2 : s.refund_smm.length = l.wam)
    (h3 : s.mdrV.length = l.wam) (ht : s.aggMDR_timingV.length = l.wam) :
    (refundPrinV l s).length = l.wam := by
  simp [refundPrinV, length_survivorshipV l s h1 h2 h3 ht, length_balancesV, h2]

lemma length_prepayPrinV (l : Loan) (s : Scenario)
    (h1 : s.smmV.length = l.wam) (h2 : s.refund_smm.length = l.wam)
    (h3 : s.mdrV.length = l.wam) (ht : s.aggMDR_timingV.length = l.wam) :
    (prepayPrinV l s).length = l.wam := by
  simp [prepayPrinV, length_prepayPrinV0 l s h1 h2 h3 ht,
    length_refundPrinV l s h1 h2 h3 ht]

lemma length_defaultV (l : Loan) (s : Scenario)
    (h1 : s.smmV.length = l.wam) (h2 : s.refund_smm.length = l.wam)
    (h3 : s.mdrV.length = l.wam) (ht : s.aggMDR_timingV.length = l.wam) :
    (defaultV l s).length = l.wam := by
  simp [defaultV, length_b_balanceV l s h1 h2 h3 ht, h3,
    length_default_aggMDRV l s ht]

lemma length_writedownV (l : Loan) (s : Scenario)
    (h1 : s.smmV.length = l.wam) (h2 : s.refund_smm.length = l.wam)
    (h3 : s.mdrV.length = l.wam) (ht : s.aggMDR_timingV.length = l.wam) :
    (writedownV l s).length = period_with_lag l s := by
  simp [writedownV, length_defaultV l s h1 h2 h3 ht, period_with_lag]

lemma length_sevPadV (l : Loan) (s : Scenario) (hsev : s.sevV.length = l.wam) :
    (sevPadV l s).length = period_with_lag l s := by
  simp [sevPadV, hsev, period_with_lag]

lemma length_recoveryV (l : Loan) (s : Scenario)
    (h1 : s.smmV.length = l.wam) (h2 : s.refund_smm.length = l.wam)
    (h3 : s.mdrV.length = l.wam) (ht : s.aggMDR_timingV.length = l.wam)
    (hsev : s.sevV.length = l.wam) :
    (recoveryV l s).length = period_with_lag l s := by
  simp [recoveryV, length_writedownV l s h1 h2 h3 ht, length_sevPadV l s hsev]

lemma length_totalPrinV (l : Loan) (s : Scenario)
    (h1 : s.smmV.length = l.wam) (h2 : s.refund_smm.length = l.wam)
    (h3 : s.mdrV.length = l.wam) (ht : s.aggMDR_timingV.length = l.wam)
    (hd : s.dqV.length = l.wam) (hsev : s.sevV.length = l.wam) :
    (totalPrinV l s).length = period_with_lag l s := by
  simp [totalPrinV, length_schedPrinV l s h1 h2 h3 ht hd,
    length_prepayPrinV0 l s h1 h2 h3 ht, length_recoveryV l s h1 h2 h3 ht hsev,
    period_with_lag]

lemma length_compIntV (l : Loan) (s : Scenario)
    (h1 : s.smmV.length = l.wam) (h2 : s.refund_smm.length = l.wam)
    (h3 : s.mdrV.length = l.wam) (ht : s.aggMDR_timingV.length = l.wam) :
    (compIntV l s).length = l.wam := by
  simp [compIntV, length_prepayPrinV0 l s h1 h2 h3 ht]

lemma length_refundIntV (l : Loan) (s : Scenario)
    (h1 : s.smmV.length = l.wam) (h2 : s.refund_smm.length = l.wam)
    (h3 : s.mdrV.length = l.wam) (ht : s.aggMDR_timingV.length = l.wam) :
    (refundIntV l s).length = l.wam := by
  simp [refundIntV, length_refundPrinV l s h1 h2 h3 ht]

lemma length_defaultBalV (l : Loan) (s : Scenario)
    (h1 : s.smmV.length = l.wam) (h2 : s.refund_smm.length = l.wam)
    (h3 : s.mdrV.length = l.wam) (ht : s.aggMDR_timingV.length = l.wam) :
    (defaultBalV l s).length = period_with_lag l s := by
  simp [defaultBalV, length_defaultV l s h1 h2 h3 ht,
    length_writedownV l s h1 h2 h3 ht, period_with_lag]

lemma length_b_totalBalV (l : Loan) (s : Scenario)
    (h1 : s.smmV.length = l.wam) (h2 : s.refund_smm.length = l.wam)
    (h3 : s.mdrV.length = l.wam) (ht : s.aggMDR_timingV.length = l.wam) :
    (b_totalBalV l s).length = period_with_lag l s := by
  have hd := length_defaultBalV l s h1 h2 h3 ht
  simp [b_totalBalV, length_b_balanceV l s h1 h2 h3 ht, hd, period_with_lag]

lemma length_totalBalV (l : Loan) (s : Scenario)
    (h1 : s.smmV.length = l.wam) (h2 : s.refund_smm.length = l.wam)
    (h3 : s.mdrV.length = l.wam) (ht : s.aggMDR_timingV.length = l.wam) :
    (totalBalV l s).length = period_with_lag l s := by
  simp [totalBalV, length_actualBalanceV l s h1 h2 h3 ht,
    length_defaultBalV l s h1 h2 h3 ht, period_with_lag]

lemma length_servicingFeeV (l : Loan) (s : Scenario)
    (h1 : s.smmV.length = l.wam) (h2 : s.refund_smm.length = l.wam)
    (h3 : s.mdrV.length = l.wam) (ht : s.aggMDR_timingV.length = l.wam) :
    (servicingFeeV l s).length = period_with_lag l s := by
  unfold servicingFeeV
  split
  · simp [servicingFee_avgV, length_b_totalBalV l s h1 h2 h3 ht,
      length_totalBalV l s h1 h2 h3 ht]
  · simp [servicingFee_begV, length_b_totalBalV l s h1 h2 h3 ht]

lemma length_actInterestV0 (l : Loan) (s : Scenario)
    (h1 : s.smmV.length = l.wam) (h2 : s.refund_smm.length = l.wam)
    (h3 : s.mdrV.length = l.wam) (ht : s.aggMDR_timingV.length = l.wam)
    (hd : s.dqV.length = l.wam) :
    (actInterestV0 l s).length = l.wam := by
  unfold actInterestV0
  split
  · simp [length_b_balanceV l s h1 h2 h3 ht]
  · simp [length_b_balanceV l s h1 h2 h3 ht, length_dqMdrV l s hd h3,
      length_default_aggMDRV l s ht, length_compIntV l s h1 h2 h3 ht]

lemma length_actInterestV (l : Loan) (s : Scenario)
    (h1 : s.smmV.length = l.wam) (h2 : s.refund_smm.length = l.wam)
    (h3 : s.mdrV.length = l.wam) (ht : s.aggMDR_timingV.length = l.wam)
    (hd : s.dqV.length = l.wam) :
    (actInterestV l s).length = l.wam := by
  simp [actInterestV, length_actInterestV0 l s h1 h2 h3 ht hd,
    length_refundIntV l s h1 h2 h3 ht]

lemma length_cfV (l : Loan) (s : Scenario)
    (h1 : s.smmV.length = l.wam) (h2 : s.refund_smm.length = l.wam)
    (h3 : s.mdrV.length = l.wam) (ht : s.aggMDR_timingV.length = l.wam)
    (hd : s.dqV.length = l.wam) (hsev : s.sevV.length = l.wam) :
    (cfV l s).length = period_with_lag l s := by
  simp [cfV, length_totalPrinV l s h1 h2 h3 ht hd hsev,
    length_actInterestV l s h1 h2 h3 ht hd, period_with_lag]

lemma length_monthsV (l : Loan) (s : Scenario) :
    (monthsV l s).length = period_with_lag l s := by
  simp [monthsV]

lemma length_yV (l : Loan) (s : Scenario) (y : ℚ) :
    (yV l s y).length = period_with_lag l s := by
  simp [yV, length_monthsV]

/-! ### Concrete loans and scenarios used by counterexamples and witnesses -/

/-- One-month loan with `wac = 12` (monthly rate `1`) and `pv = 1`; the
balance path is `[1, 0]`. -/
def loanA : Loan := ⟨12, 1, 1⟩

/-- All-zero one-month scenario (every rate vector `[0]`, no lag, no fees). -/
def zs1 : Scenario := ⟨[0], [0], [0], [0], 0, [0], 1, 0, [0], 0, 0, false, "avg"⟩

/-- One-month scenario whose prepayment rate `1 - 10⁻¹²` drives the periodic
survivorship, and hence the denominator `balance·periodicSurv = 10⁻¹²`, within
the 3e-11 tolerance of zero while staying nonzero; `aggMDR = 1` with timing
`[1]` makes the aggregate-default numerator `1`. -/
def tinyDenScen : Scenario :=
  ⟨[1 - 1 / 10 ^ 12], [0], [0], [0], 0, [0], 1, 1, [1], 0, 0, false, "avg"⟩

/-- One-month scenario with `smm = mdr = 9/10` (each entry inside `[0, 1]`)
whose combined hazard exceeds `1`, driving survivorship negative. -/
def badScen : Scenario := ⟨[9 / 10], [0], [9 / 10], [0], 0, [0], 1, 0, [1], 0, 0, false, "avg"⟩

/-- `zs1` with the beginning-balance servicing-fee method string. -/
def zs1beg : Scenario := ⟨[0], [0], [0], [0], 0, [0], 1, 0, [0], 0, 0, false, "beg"⟩

/-- One-month scenario with default rate `1/2`, severity `1/4` and a one-month
recovery lag, exercising the padding and shifting of the writedown path. -/
def lagScen : Scenario := ⟨[0], [0], [1 / 2], [1 / 4], 1, [0], 1, 0, [0], 0, 0, false, "avg"⟩

/-- Zero-coupon loan: `wac = 0`, `wam = 2`, `pv = 100`. -/
def zcLoan : Loan := ⟨0, 2, 100⟩

/-- A loan violating the `pv > 0` constraint. -/
def negLoan : Loan := ⟨12, 1, -1⟩

/-! ### C9 — safedivide -/

/-- C9 counterexample: the claim says `safedivide` returns the exact quotient
whenever `|b| ≥ 3e-11`, but at the boundary `b = 3e-11` itself the code's
`np.isclose(b, 0, rtol=0, atol=3e-11)` test is the inclusive comparison
`|b| ≤ 3e-11`, so `safedivide 1 3e-11 = 0` while the exact quotient
`1 / 3e-11` is nonzero. -/
theorem C9_counterexample :
    safedivide 1 (3 / 10 ^ 11) = 0 ∧ (1 : ℚ) / (3 / 10 ^ 11) ≠ 0 := by
  constructor
  · rw [safedivide, if_pos (by norm_num [abs_of_pos])]
  · norm_num

/-- C9 (amended): `safedivide a b` returns `0` whenever `|b| ≤ 3e-11`
(the tolerance is inclusive), and the exact quotient `a / b` whenever
`|b| > 3e-11`. -/
theorem C9_safedivide (a b : ℚ) :
    (|b| ≤ 3 / 10 ^ 11 → safedivide a b = 0) ∧
    (3 / 10 ^ 11 < |b| → safedivide a b = a / b) := by
  constructor
  · intro h
    rw [safedivide, if_pos h]
  · intro h
    rw [safedivide, if_neg (not_le.mpr h)]

/-- C9 witness: `safedivide 5 0 = 0` and `safedivide 6 2 = 3`, by the amended
theorem at concrete inputs. -/
theorem C9_witness : safedivide 5 0 = 0 ∧ safedivide 6 2 = 3 := by
  constructor
  · exact (C9_safedivide 5 0).1 (by norm_num)
  · rw [(C9_safedivide 6 2).2 (by rw [abs_of_pos] <;> norm_num)]
    norm_num

/-! ### C10 — servicing-fee method fallback -/

/-- C10: for every servicing-fee-method string other than exactly `"avg"`
(including `"beg"`, unrecognized strings and the empty string), the fee is the
beginning-balance method — beginning total balance times the monthly fee rate
`servicing_fee / 12` — and the branch is total (no error is raised). -/
theorem C10_servicing_fee_beg (l : Loan) (s : Scenario)
    (h : s.servicing_fee_method ≠ "avg") :
    servicingFeeV l s = (b_totalBalV l s).map (fun b => b * (s.servicing_fee / 12)) := by
  rw [servicingFeeV, if_neg h]
  rfl

/-- C10 witness: the beginning-balance method at the concrete scenario whose
method string is `"beg"`. -/
theorem C10_witness :
    servicingFeeV loanA zs1beg =
      (b_totalBalV loanA zs1beg).map (fun b => b * (zs1beg.servicing_fee / 12)) :=
  C10_servicing_fee_beg loanA zs1beg (by decide)

/-! ### C2 — zero-coupon special case -/

/-- C2 (code bug): for `wac = 0` the payment `X = -npf.pmt(0, wam, pv)` is the
special-cased straight-line value `pv / wam = 50`, but the closed-form balance
path of loancf.py line 100 divides by `1 - (1 + rate)^(-wam)`, which is `0`
when `rate = 0` — and its numerator `1 - (1 + rate)^(-(wam - t))` is `0` too,
so in IEEE arithmetic every balance is `0.0 / 0.0 = NaN` and the scheduled
principal and interest columns are NaN rather than `pv/wam` and `0`. -/
theorem C2_zero_coupon_code_bug :
    X zcLoan = 50 ∧ amortDen zcLoan = 0 ∧
    zcLoan.pv * (1 - ((1 + monRate zcLoan) ^ (zcLoan.wam - 0))⁻¹) = 0 := by
  refine ⟨?_, ?_, ?_⟩
  · norm_num [X, npf_pmt, monRate, zcLoan]
  · norm_num [amortDen, monRate, zcLoan]
  · norm_num [monRate, zcLoan]

/-! ### C3 — eager input validation -/

/-- C3 counterexample: the source defines no `InvalidInput` error and performs
no validation; a loan with `pv = -1 ≤ 0` flows straight through the cash-flow
arithmetic, producing a one-row table whose scheduled principal is `-1`. -/
theorem C3_counterexample :
    negLoan.pv ≤ 0 ∧ schedPrinV negLoan zs1 = [-1] ∧
    (monthsV negLoan zs1).length = 1 := by
  refine ⟨by norm_num [negLoan], ?_, by decide⟩
  norm_num [schedPrinV, survivorshipV, p_survV, cumprod, cumprodAux, hazardV,
    cum_scaled_default_aggMDRV, cumsum, cumsumAux, scaled_default_aggMDRV,
    default_aggMDRV, balancesV, amortDen, monRate, zs1, negLoan, List.zipWith,
    dqPrinV, dqMdrV, dqPrin_aggMDRV, paydownV, principalsV, interestsV, X,
    npf_pmt, List.range]

/-- C3 (amended): no computation validates its inputs — there is no
`InvalidInput` check anywhere in getCashflow, y2p or p2y.  In particular a
loan with `pv ≤ 0` is processed by the ordinary arithmetic: for a one-month
loan at `wac = 12` under the all-zero scenario the table is still produced,
with scheduled principal `[pv]`. -/
theorem C3_no_validation (pv : ℚ) (hpv : pv ≤ 0) :
    schedPrinV ⟨12, 1, pv⟩ zs1 = [pv] := by
  norm_num [schedPrinV, survivorshipV, p_survV, cumprod, cumprodAux, hazardV,
    cum_scaled_default_aggMDRV, cumsum, cumsumAux, scaled_default_aggMDRV,
    default_aggMDRV, balancesV, amortDen, monRate, zs1, List.zipWith,
    dqPrinV, dqMdrV, dqPrin_aggMDRV, paydownV, principalsV, interestsV, X,
    npf_pmt, List.range]
  ring

/-- C3 witness: the amended theorem at `pv = -2`. -/
theorem C3_witness : schedPrinV ⟨12, 1, -2⟩ zs1 = [-2] :=
  C3_no_validation (-2) (by norm_num)

/-! ### C1 — aggregate-default scaling is a plain division -/

/-- C1 counterexample: loancf.py line 108 divides by `balance·periodicSurv`
with a plain `/`, not `safedivide`.  At `loanA`/`tinyDenScen` the denominator
is `10⁻¹²`, within the claimed 3e-11 tolerance of zero, yet the scaling is
`10¹² ≠ 0` instead of the claimed `0` (and it then contaminates the
survivorship and every downstream column). -/
theorem C1_counterexample :
    |(balancesV loanA).dropLast.getD 0 0 * (p_survV loanA tinyDenScen).getD 0 0|
        < 3 / 10 ^ 11 ∧
    (scaled_default_aggMDRV loanA tinyDenScen).getD 0 0 = 10 ^ 12 ∧
    (scaled_default_aggMDRV loanA tinyDenScen).getD 0 0 ≠ 0 := by
  refine ⟨?_, ?_, ?_⟩
  · norm_num [balancesV, p_survV, cumprod, cumprodAux, hazardV, amortDen,
      monRate, loanA, tinyDenScen, List.zipWith, List.range, List.range.loop,
      abs_of_pos]
  · norm_num [scaled_default_aggMDRV, default_aggMDRV, balancesV, p_survV,
      cumprod, cumprodAux, hazardV, amortDen, monRate, loanA, tinyDenScen,
      List.zipWith, List.range, List.range.loop]
  · norm_num [scaled_default_aggMDRV, default_aggMDRV, balancesV, p_survV,
      cumprod, cumprodAux, hazardV, amortDen, monRate, loanA, tinyDenScen,
      List.zipWith, List.range, List.range.loop]

/-- C1 (amended): the aggregate-default scaling of loancf.py line 108 is a
plain elementwise division with no tolerance guard: for every month `t` whose
denominator `balance[t]·periodicSurv[t]` is nonzero,
`scaled[t] = (pv·aggMDR·timing[t]) / (balance[t]·periodicSurv[t])`, even when
that denominator is within 3e-11 of zero; a denominator that is exactly zero
produces a non-finite float value, not 0.  (The hypothesis `hden` restricts
the statement to where exact-rational and IEEE division agree.) -/
theorem C1_plain_division (l : Loan) (s : Scenario)
    (h1 : s.smmV.length = l.wam) (h2 : s.refund_smm.length = l.wam)
    (h3 : s.mdrV.length = l.wam) (ht : s.aggMDR_timingV.length = l.wam)
    (t : ℕ) (htl : t < l.wam)
    (hden : (balancesV l).dropLast.getD t 0 * (p_survV l s).getD t 0 ≠ 0) :
    (scaled_default_aggMDRV l s).getD t 0 =
      l.pv * s.aggMDR * s.aggMDR_timingV.getD t 0
        / ((balancesV l).dropLast.getD t 0 * (p_survV l s).getD t 0) := by
  have hda : t < (default_aggMDRV l s).length := by
    rw [length_default_aggMDRV l s ht]; exact htl
  have hbl : t < (balancesV l).dropLast.length := by
    simp [length_balancesV]; exact htl
  have hps : t < (p_survV l s).length := by
    rw [length_p_survV l s h1 h2 h3]; exact htl
  have hzi : t < (List.zipWith (fun a b => a * b) (balancesV l).dropLast (p_survV l s)).length := by
    rw [List.length_zipWith]; omega
  rw [scaled_default_aggMDRV, getD_zipWith hda hzi, getD_zipWith hbl hps,
    default_aggMDRV, getD_map _ _ t 0 0 (by rw [ht]; exact htl)]

/-- C1 witness: the amended theorem at `loanA`/`tinyDenScen`, month 0, where
the denominator is the nonzero `10⁻¹²`. -/
theorem C1_witness :
    (scaled_default_aggMDRV loanA tinyDenScen).getD 0 0 =
      loanA.pv * tinyDenScen.aggMDR * tinyDenScen.aggMDR_timingV.getD 0 0
        / ((balancesV loanA).dropLast.getD 0 0 * (p_survV loanA tinyDenScen).getD 0 0) :=
  C1_plain_division loanA tinyDenScen rfl rfl rfl rfl 0 (by decide)
    (by norm_num [balancesV, p_survV, cumprod, cumprodAux, hazardV, amortDen,
      monRate, loanA, tinyDenScen, List.zipWith, List.range, List.range.loop])

/-! ### C4 — loss decomposition -/

/-- C4: for every loan and data-model-conformant scenario with severity values
in `[0, 1]` and any recovery lag, the table satisfies
`writedown[t] · severity[t] = writedown[t] − recovery[t]` exactly for every
month `t` of the extended horizon, where `severity` is the severity vector
extended to the lag horizon with its last value (`sevPadV`), exactly as the
source pads it.  Exact, because `recovery = writedown · (1 − severity)` at
line 132. -/
theorem C4_loss_decomposition (l : Loan) (s : Scenario)
    (h1 : s.smmV.length = l.wam) (h2 : s.refund_smm.length = l.wam)
    (h3 : s.mdrV.length = l.wam) (ht : s.aggMDR_timingV.length = l.wam)
    (hsev : s.sevV.length = l.wam)
    (hbd : ∀ i, i < l.wam → 0 ≤ s.sevV.getD i 0 ∧ s.sevV.getD i 0 ≤ 1)
    (t : ℕ) (htl : t < period_with_lag l s) :
    (writedownV l s).getD t 0 * (sevPadV l s).getD t 0 =
      (writedownV l s).getD t 0 - (recoveryV l s).getD t 0 := by
  have hw : t < (writedownV l s).length := by
    rw [length_writedownV l s h1 h2 h3 ht]; exact htl
  have hs : t < (sevPadV l s).length := by
    rw [length_sevPadV l s hsev]; exact htl
  rw [recoveryV, getD_zipWith hw hs]
  ring

/-- C4 witness: a one-month loan with a one-month recovery lag, severity
`[1/4]` and default rate `[1/2]`; the identity at the lagged month `t = 1`. -/
theorem C4_witness :
    (writedownV loanA lagScen).getD 1 0 * (sevPadV loanA lagScen).getD 1 0 =
      (writedownV loanA lagScen).getD 1 0 - (recoveryV loanA lagScen).getD 1 0 :=
  C4_loss_decomposition loanA lagScen rfl rfl rfl rfl rfl
    (by
      intro i hi
      have hw1 : loanA.wam = 1 := rfl
      have hi0 : i = 0 := by omega
      subst hi0
      norm_num [lagScen]) 1 (by decide)

/-! ### C8 — shape of the cash-flow table -/

/-- C8: for every loan (with the data-model constraint `wam > 0`) and every
scenario whose rate vectors have the data-model length `wam`, `getCashflow`
returns the ordered month sequence `1, 2, …, wam + recovery_lag` and every
column of the table is defined on that full extended horizon (length
`wam + recovery_lag`). -/
theorem C8_table_shape (l : Loan) (s : Scenario)
    (h1 : s.smmV.length = l.wam) (h2 : s.refund_smm.length = l.wam)
    (h3 : s.mdrV.length = l.wam) (ht : s.aggMDR_timingV.length = l.wam)
    (hd : s.dqV.length = l.wam) (hsev : s.sevV.length = l.wam)
    (hw : 0 < l.wam) :
    (getCashflow l s).months = List.range' 1 (l.wam + s.recovery_lag) ∧
    (getCashflow l s).prin.length = l.wam + s.recovery_lag ∧
    (getCashflow l s).schedPrin.length = l.wam + s.recovery_lag ∧
    (getCashflow l s).prepayPrin.length = l.wam + s.recovery_lag ∧
    (getCashflow l s).refundPrin.length = l.wam + s.recovery_lag ∧
    (getCashflow l s).defaultCol.length = l.wam + s.recovery_lag ∧
    (getCashflow l s).writedown.length = l.wam + s.recovery_lag ∧
    (getCashflow l s).recovery.length = l.wam + s.recovery_lag ∧
    (getCashflow l s).interest.length = l.wam + s.recovery_lag ∧
    (getCashflow l s).servicingFee.length = l.wam + s.recovery_lag ∧
    (getCashflow l s).beginningBalance.length = l.wam + s.recovery_lag ∧
    (getCashflow l s).balance.length = l.wam + s.recovery_lag ∧
    (getCashflow l s).cfl.length = l.wam + s.recovery_lag := by
  refine ⟨rfl, length_totalPrinV l s h1 h2 h3 ht hd hsev, ?_, ?_, ?_, ?_,
    length_writedownV l s h1 h2 h3 ht,
    length_recoveryV l s h1 h2 h3 ht hsev, ?_,
    length_servicingFeeV l s h1 h2 h3 ht, ?_, ?_,
    length_cfV l s h1 h2 h3 ht hd hsev⟩
  · show (pad_zeros (schedPrinV l s) (period_with_lag l s)).length = _
    rw [length_pad_zeros, length_schedPrinV l s h1 h2 h3 ht hd, period_with_lag]
    omega
  · show (pad_zeros (prepayPrinV l s) (period_with_lag l s)).length = _
    rw [length_pad_zeros, length_prepayPrinV l s h1 h2 h3 ht, period_with_lag]
    omega
  · show (pad_zeros (refundPrinV l s) (period_with_lag l s)).length = _
    rw [length_pad_zeros, length_refundPrinV l s h1 h2 h3 ht, period_with_lag]
    omega
  · show (pad_zeros (defaultV l s) (period_with_lag l s)).length = _
    rw [length_pad_zeros, length_defaultV l s h1 h2 h3 ht, period_with_lag]
    omega
  · show (pad_zeros (actInterestV l s) (period_with_lag l s)).length = _
    rw [length_pad_zeros, length_actInterestV l s h1 h2 h3 ht hd, period_with_lag]
    omega
  · show (pad_zeros (b_balanceV l s) (period_with_lag l s)).length = _
    rw [length_pad_zeros, length_b_balanceV l s h1 h2 h3 ht, period_with_lag]
    omega
  · show (pad_zeros (actualBalanceV l s) (period_with_lag l s)).length = _
    rw [length_pad_zeros, length_actualBalanceV l s h1 h2 h3 ht, period_with_lag]
    omega

/-- C8 witness: the one-month loan with one month of recovery lag has months
`[1, 2]` and a two-row cash-flow column. -/
theorem C8_witness :
    (getCashflow loanA lagScen).months = List.range' 1 2 ∧
    (getCashflow loanA lagScen).cfl.length = 2 := by
  have h := C8_table_shape loanA lagScen rfl rfl rfl rfl rfl rfl (by decide)
  exact ⟨h.1, h.2.2.2.2.2.2.2.2.2.2.2.2⟩

/-! ### C6 — the y2p pricing formula -/

/-- C6: for every loan, data-model-conformant scenario and yield `y`, `y2p`
returns exactly
`Σ_t (cashflow[t] − servicingFee[t]) / (1 + y/12)^t` divided by
`pv − Σ_t refundPrincipal[t] / (1 + y/12)^t`, where `t` ranges over months
`1 … wam + recovery_lag` (index `t+1` over the 0-based table rows) and the
three vectors are the `CFL`, `Servicing Fee` and `Refund Prin` columns of the
table produced by `getCashflow`. -/
theorem C6_y2p_formula (l : Loan) (s : Scenario)
    (h1 : s.smmV.length = l.wam) (h2 : s.refund_smm.length = l.wam)
    (h3 : s.mdrV.length = l.wam) (ht : s.aggMDR_timingV.length = l.wam)
    (hd : s.dqV.length = l.wam) (hsev : s.sevV.length = l.wam) (y : ℚ) :
    y2p l s y =
      (∑ t ∈ Finset.range (l.wam + s.recovery_lag),
          ((getCashflow l s).cfl.getD t 0 - (getCashflow l s).servicingFee.getD t 0)
            / (1 + y / 12) ^ (t + 1))
        / (l.pv - ∑ t ∈ Finset.range (l.wam + s.recovery_lag),
            (getCashflow l s).refundPrin.getD t 0 / (1 + y / 12) ^ (t + 1)) := by
  have hn := length_monthsV l s
  have hcf : (getCashflow l s).cfl.length = period_with_lag l s :=
    length_cfV l s h1 h2 h3 ht hd hsev
  have hfee : (getCashflow l s).servicingFee.length = period_with_lag l s :=
    length_servicingFeeV l s h1 h2 h3 ht
  have hrp : (getCashflow l s).refundPrin.length = period_with_lag l s := by
    show (pad_zeros (refundPrinV l s) (period_with_lag l s)).length = _
    rw [length_pad_zeros, length_refundPrinV l s h1 h2 h3 ht, period_with_lag]
    omega
  have hyl := length_yV l s y
  have hyget : ∀ t, t < period_with_lag l s →
      (yV l s y).getD t 0 = (1 + y / 12) ^ (t + 1) := by
    intro t htl
    have hml : t < (monthsV l s).length := by rw [hn]; exact htl
    rw [yV, getD_map _ _ t 0 0 hml]
    have hmg : (monthsV l s).getD t 0 = 1 + t := by
      rw [List.getD_eq_getElem _ _ hml]
      simp [monthsV]
    rw [hmg, Nat.add_comm]
  have hsubl : (List.zipWith (fun c f => c - f)
      (getCashflow l s).cfl (getCashflow l s).servicingFee).length = period_with_lag l s := by
    rw [List.length_zipWith, hcf, hfee]
    omega
  unfold y2p
  rw [sum_zipWith_getD (fun c d => c / d)
      (List.zipWith (fun c f => c - f) (getCashflow l s).cfl (getCashflow l s).servicingFee)
      (yV l s y) (by rw [hsubl, hyl]),
    sum_zipWith_getD (fun r d => r / d) (getCashflow l s).refundPrin (yV l s y)
      (by rw [hrp, hyl]),
    hsubl, hrp]
  have e1 : ∑ t ∈ Finset.range (period_with_lag l s),
      (List.zipWith (fun c f => c - f) (getCashflow l s).cfl
        (getCashflow l s).servicingFee).getD t 0 / (yV l s y).getD t 0 =
      ∑ t ∈ Finset.range (l.wam + s.recovery_lag),
        ((getCashflow l s).cfl.getD t 0 - (getCashflow l s).servicingFee.getD t 0)
          / (1 + y / 12) ^ (t + 1) := by
    refine Finset.sum_congr rfl ?_
    intro t htm
    have htl : t < period_with_lag l s := Finset.mem_range.mp htm
    rw [getD_zipWith (by rw [hcf]; exact htl) (by rw [hfee]; exact htl), hyget t htl]
  have e2 : ∑ t ∈ Finset.range (period_with_lag l s),
      (getCashflow l s).refundPrin.getD t 0 / (yV l s y).getD t 0 =
      ∑ t ∈ Finset.range (l.wam + s.recovery_lag),
        (getCashflow l s).refundPrin.getD t 0 / (1 + y / 12) ^ (t + 1) := by
    refine Finset.sum_congr rfl ?_
    intro t htm
    have htl : t < period_with_lag l s := Finset.mem_range.mp htm
    rw [hyget t htl]
  rw [e1, e2]

/-- C6 witness: the formula at the one-month loan with a one-month recovery
lag and yield `y = 0`. -/
theorem C6_witness :
    y2p loanA lagScen 0 =
      (∑ t ∈ Finset.range 2,
          ((getCashflow loanA lagScen).cfl.getD t 0 -
            (getCashflow loanA lagScen).servicingFee.getD t 0) / (1 + (0 : ℚ) / 12) ^ (t + 1))
        / (loanA.pv - ∑ t ∈ Finset.range 2,
            (getCashflow loanA lagScen).refundPrin.getD t 0 / (1 + (0 : ℚ) / 12) ^ (t + 1)) :=
  C6_y2p_formula loanA lagScen rfl rfl rfl rfl rfl rfl 0

/-! ### C7 — p2y bracketed root-finding -/

/-- C7: `p2y` hands `brentq` the objective `y2p(y) − fullpx` over the fixed
annual-yield bracket `[0.0001, 1.0]`, so any yield it returns lies in that
bracket and satisfies `y2p(y) = target`; and it fails with the explicit
bracket error — never a fabricated result — exactly when the objective does
not change sign over the bracket, i.e. when
`(y2p(0.0001) − target)·(y2p(1) − target) > 0`.  (`brentq` itself is library
code modelled by its bracketing contract, `brentqRoot` / `brentqNoBracket`.) -/
theorem C7_p2y_solver (l : Loan) (s : Scenario) (target : ℚ) :
    (∀ r, p2y_returns l s target r → 1 / 10000 ≤ r ∧ r ≤ 1 ∧ y2p l s r = target) ∧
    (p2y_fails l s target ↔
      0 < (y2p l s (1 / 10000) - target) * (y2p l s 1 - target)) := by
  constructor
  · intro r hr
    obtain ⟨ha, hb, hz⟩ := hr
    refine ⟨ha, hb, ?_⟩
    have hz2 : y2p l s r - target = 0 := hz
    linarith
  · exact Iff.rfl

/-- C7 witness: with the target price chosen as `y2p` of the yield `1/2`, the
yield `1/2` is a bracketed root and `p2y` returning it solves
`y2p(y) = target`. -/
theorem C7_witness :
    1 / 10000 ≤ (1 / 2 : ℚ) ∧ (1 / 2 : ℚ) ≤ 1 ∧
    y2p loanA zs1 (1 / 2) = y2p loanA zs1 (1 / 2) :=
  (C7_p2y_solver loanA zs1 (y2p loanA zs1 (1 / 2))).1 (1 / 2)
    ⟨by norm_num, by norm_num, sub_self _⟩

/-! ### C5 — survivorship monotonicity -/

/-- C5 counterexample: with `smm = mdr = 9/10` — every rate-vector entry
inside `[0, 1]` — the combined monthly hazard `smm + refund + mdr = 9/5`
exceeds 1, the per-month survival factor is negative, and the survivorship
path is `[1, -4/5]`: `surv[1] < 0`, violating the claimed
`0 ≤ surv[t+1] ≤ surv[t] ≤ 1`. -/
theorem C5_counterexample :
    (∀ x ∈ badScen.smmV, 0 ≤ x ∧ x ≤ 1) ∧
    (∀ x ∈ badScen.dqV, 0 ≤ x ∧ x ≤ 1) ∧
    (∀ x ∈ badScen.mdrV, 0 ≤ x ∧ x ≤ 1) ∧
    (∀ x ∈ badScen.sevV, 0 ≤ x ∧ x ≤ 1) ∧
    (∀ x ∈ badScen.refund_smm, 0 ≤ x ∧ x ≤ 1) ∧
    (∀ x ∈ badScen.aggMDR_timingV, 0 ≤ x ∧ x ≤ 1) ∧
    (survivorshipV loanA badScen).getD 1 0 = -4 / 5 ∧
    ¬ 0 ≤ (survivorshipV loanA badScen).getD 1 0 := by
  refine ⟨?_, ?_, ?_, ?_, ?_, ?_, ?_, ?_⟩
  · intro x hx; norm_num [badScen] at hx; norm_num [hx]
  · intro x hx; norm_num [badScen] at hx; norm_num [hx]
  · intro x hx; norm_num [badScen] at hx; norm_num [hx]
  · intro x hx; norm_num [badScen] at hx; norm_num [hx]
  · intro x hx; norm_num [badScen] at hx; norm_num [hx]
  · intro x hx; norm_num [badScen] at hx; norm_num [hx]
  · norm_num [survivorshipV, p_survV, cumprod, cumprodAux, hazardV,
      cum_scaled_default_aggMDRV, cumsum, cumsumAux, scaled_default_aggMDRV,
      default_aggMDRV, balancesV, amortDen, monRate, loanA, badScen,
      List.zipWith, List.range, List.range.loop]
  · norm_num [survivorshipV, p_survV, cumprod, cumprodAux, hazardV,
      cum_scaled_default_aggMDRV, cumsum, cumsumAux, scaled_default_aggMDRV,
      default_aggMDRV, balancesV, amortDen, monRate, loanA, badScen,
      List.zipWith, List.range, List.range.loop]

/-- C5 (amended): the survivorship path starts at the synthetic value 1 and
satisfies `0 ≤ surv[t+1] ≤ surv[t] ≤ 1` over the `wam`-month horizon
*provided* that, beyond every rate-vector entry lying in `[0, 1]`, the
combined monthly hazard `smm + refund_smm + mdr` does not exceed 1 in any
month and the aggregate-default haircuts are nonnegative with cumulative sum
at most 1 (`0 ≤ scaled[t]`, `cum[t] ≤ 1`).  Without these extra conditions
the claim fails (see the counterexample). -/
theorem C5_survivorship_monotone (l : Loan) (s : Scenario)
    (h1 : s.smmV.length = l.wam) (h2 : s.refund_smm.length = l.wam)
    (h3 : s.mdrV.length = l.wam) (ht : s.aggMDR_timingV.length = l.wam)
    (hs0 : ∀ i, i < l.wam → 0 ≤ s.smmV.getD i 0)
    (hr0 : ∀ i, i < l.wam → 0 ≤ s.refund_smm.getD i 0)
    (hm0 : ∀ i, i < l.wam → 0 ≤ s.mdrV.getD i 0)
    (hsum : ∀ i, i < l.wam →
      s.smmV.getD i 0 + s.refund_smm.getD i 0 + s.mdrV.getD i 0 ≤ 1)
    (hsc : ∀ i, i < l.wam → 0 ≤ (scaled_default_aggMDRV l s).getD i 0)
    (hcum : ∀ i, i < l.wam → (cum_scaled_default_aggMDRV l s).getD i 0 ≤ 1)
    (t : ℕ) (htl : t + 1 < (survivorshipV l s).length) :
    0 ≤ (survivorshipV l s).getD (t + 1) 0 ∧
    (survivorshipV l s).getD (t + 1) 0 ≤ (survivorshipV l s).getD t 0 ∧
    (survivorshipV l s).getD t 0 ≤ 1 := by
  have hlen := length_survivorshipV l s h1 h2 h3 ht
  have htw : t < l.wam := by rw [hlen] at htl; omega
  have hhl : (hazardV l s).length = l.wam := length_hazardV l s h1 h2 h3
  have hhb : ∀ i, i < l.wam →
      0 ≤ (hazardV l s).getD i 0 ∧ (hazardV l s).getD i 0 ≤ 1 := by
    intro i hi
    have hrep : i < (List.replicate l.wam (1 : ℚ)).length := by simp [hi]
    have hge : (hazardV l s).getD i 0
        = 1 - s.smmV.getD i 0 - s.refund_smm.getD i 0 - s.mdrV.getD i 0 := by
      rw [hazardV,
        getD_zipWith (by simp [List.length_zipWith, h1, h2]; omega) (by rw [h3]; exact hi),
        getD_zipWith (by simp [List.length_zipWith, h1]; omega) (by rw [h2]; exact hi),
        getD_zipWith (by simp [hi]) (by rw [h1]; exact hi),
        List.getD_eq_getElem _ _ hrep, List.getElem_replicate]
    rw [hge]
    have hv1 := hs0 i hi
    have hv2 := hr0 i hi
    have hv3 := hm0 i hi
    have hv4 := hsum i hi
    constructor
    · linarith
    · linarith
  have hpb : ∀ i, i < l.wam →
      0 ≤ (p_survV l s).getD i 0 ∧ (p_survV l s).getD i 0 ≤ 1 := by
    intro i hi
    exact cumprodAux_getD_bounds (hazardV l s) 1 (by norm_num) (by norm_num)
      (fun j hj => hhb j (by rw [hhl] at hj; exact hj)) i (by rw [hhl]; exact hi)
  have hpstep : ∀ i, i + 1 < l.wam →
      (p_survV l s).getD (i + 1) 0
        = (p_survV l s).getD i 0 * (hazardV l s).getD (i + 1) 0 := by
    intro i hi
    exact cumprodAux_getD_succ (hazardV l s) 1 i (by rw [hhl]; exact hi)
  have hsl : (scaled_default_aggMDRV l s).length = l.wam :=
    length_scaled_default_aggMDRV l s h1 h2 h3 ht
  have hcl : (cum_scaled_default_aggMDRV l s).length = l.wam :=
    length_cum_scaled l s h1 h2 h3 ht
  have hc0 : ∀ i, i < l.wam → 0 ≤ (cum_scaled_default_aggMDRV l s).getD i 0 := by
    intro i hi
    exact cumsumAux_getD_nonneg (scaled_default_aggMDRV l s) 0 le_rfl
      (fun j hj => hsc j (by rw [hsl] at hj; exact hj)) i (by rw [hsl]; exact hi)
  have hcstep : ∀ i, i + 1 < l.wam →
      (cum_scaled_default_aggMDRV l s).getD (i + 1) 0
        = (cum_scaled_default_aggMDRV l s).getD i 0
          + (scaled_default_aggMDRV l s).getD (i + 1) 0 := by
    intro i hi
    exact cumsumAux_getD_succ (scaled_default_aggMDRV l s) 0 i (by rw [hsl]; exact hi)
  have hsurv0 : (survivorshipV l s).getD 0 0 = 1 := rfl
  have hsurvS : ∀ i, i < l.wam → (survivorshipV l s).getD (i + 1) 0
      = (p_survV l s).getD i 0 * (1 - (cum_scaled_default_aggMDRV l s).getD i 0) := by
    intro i hi
    rw [survivorshipV, List.getD_cons_succ]
    exact getD_zipWith (by rw [length_p_survV l s h1 h2 h3]; exact hi)
      (by rw [hcl]; exact hi)
  refine ⟨?_, ?_, ?_⟩
  · rw [hsurvS t htw]
    exact mul_nonneg (hpb t htw).1 (by have := hcum t htw; linarith)
  · cases t with
    | zero =>
      rw [hsurvS 0 htw, hsurv0]
      exact mul_le_one₀ (hpb 0 htw).2 (by have := hcum 0 htw; linarith)
        (by have := hc0 0 htw; linarith)
    | succ j =>
      have hj1 : j + 1 < l.wam := htw
      have hjw : j < l.wam := by omega
      rw [hsurvS (j + 1) hj1, hsurvS j hjw, hpstep j hj1]
      have hpj := hpb j hjw
      have hhj := hhb (j + 1) hj1
      have hscj := hsc (j + 1) hj1
      have hcumj1 := hcum (j + 1) hj1
      rw [hcstep j hj1] at hcumj1
      have hcj0 := hc0 j hjw
      refine mul_le_mul (mul_le_of_le_one_right hpj.1 hhj.2) ?_ ?_ hpj.1
      · rw [hcstep j hj1]
        linarith
      · rw [hcstep j hj1]
        linarith
  · cases t with
    | zero =>
      rw [hsurv0]
    | succ j =>
      have hjw : j < l.wam := by omega
      rw [hsurvS j hjw]
      exact mul_le_one₀ (hpb j hjw).2 (by have := hcum j hjw; linarith)
        (by have := hc0 j hjw; linarith)

/-- C5 witness: the amended monotonicity at the all-zero one-month scenario,
where the survivorship path is `[1, 1]`. -/
theorem C5_witness :
    0 ≤ (survivorshipV loanA zs1).getD 1 0 ∧
    (survivorshipV loanA zs1).getD 1 0 ≤ (survivorshipV loanA zs1).getD 0 0 ∧
    (survivorshipV loanA zs1).getD 0 0 ≤ 1 :=
  C5_survivorship_monotone loanA zs1 rfl rfl rfl rfl
    (by
      intro i hi
      have hw1 : loanA.wam = 1 := rfl
      have hi0 : i = 0 := by omega
      subst hi0
      norm_num [zs1])
    (by
      intro i hi
      have hw1 : loanA.wam = 1 := rfl
      have hi0 : i = 0 := by omega
      subst hi0
      norm_num [zs1])
    (by
      intro i hi
      have hw1 : loanA.wam = 1 := rfl
      have hi0 : i = 0 := by omega
      subst hi0
      norm_num [zs1])
    (by
      intro i hi
      have hw1 : loanA.wam = 1 := rfl
      have hi0 : i = 0 := by omega
      subst hi0
      norm_num [zs1])
    (by
      intro i hi
      have hw1 : loanA.wam = 1 := rfl
      have hi0 : i = 0 := by omega
      subst hi0
      norm_num [scaled_default_aggMDRV, default_aggMDRV, balancesV, p_survV,
        cumprod, cumprodAux, hazardV, amortDen, monRate, loanA, zs1,
        List.zipWith, List.range, List.range.loop])
    (by
      intro i hi
      have hw1 : loanA.wam = 1 := rfl
      have hi0 : i = 0 := by omega
      subst hi0
      norm_num [cum_scaled_default_aggMDRV, cumsum, cumsumAux,
        scaled_default_aggMDRV, default_aggMDRV, balancesV, p_survV,
        cumprod, cumprodAux, hazardV, amortDen, monRate, loanA, zs1,
        List.zipWith, List.range, List.range.loop])
    0
    (by
      rw [length_survivorshipV loanA zs1 rfl rfl rfl rfl]
      norm_num [loanA])

end Loancf
